import Mathlib

/-!
Shallow embedding of the Atlan support-agent workflow repository
(`src/workflow.py`, `src/ticketing.py`, `src/llm.py`, `src/db.py`,
`src/schemas.py`, `apps/streamlit_agent.py`).

The repository wires seven node functions into a LangGraph `StateGraph`
over an `AgentState` typed dict: three classifiers fan out from START,
join at `validate_topic`, whose boolean routes either to
`retrieve_docs` -> `generate_answer` or to `create_ticket`.

All external capabilities (the LLM wrappers in `src/llm.py`, the vector
retriever, the ticket database of `src/db.py`, and the uuid generator)
are modelled as an explicit environment `Env`; a `none` result of an
environment function models the Python call raising an exception (which
the `safe_invoke_*` wrappers and the nodes' `try/except` blocks catch)
or, for `safe_invoke_structured`, returning no structured object.
Exceptions never escape the node functions in the source, so every node
is a total Lean function of the environment and the state.
-/

/-- Label enumeration of `SentimentSchema` (`src/schemas.py`): the
structured-output wrapper can only produce one of these literals. -/
inductive SentimentLabel where
  | Frustrated | Neutral | Curious | Angry
deriving DecidableEq, Repr

def SentimentLabel.toStr : SentimentLabel → String
  | .Frustrated => "Frustrated"
  | .Neutral => "Neutral"
  | .Curious => "Curious"
  | .Angry => "Angry"

/-- Label enumeration of `TopicSchema` (`src/schemas.py`). -/
inductive TopicLabel where
  | HowTo | Product | Connector | Lineage | APISDK | SSO
  | Glossary | BestPractices | SensitiveData | unclear | out_of_scope
deriving DecidableEq, Repr

def TopicLabel.toStr : TopicLabel → String
  | .HowTo => "How-to"
  | .Product => "Product"
  | .Connector => "Connector"
  | .Lineage => "Lineage"
  | .APISDK => "API/SDK"
  | .SSO => "SSO"
  | .Glossary => "Glossary"
  | .BestPractices => "Best practices"
  | .SensitiveData => "Sensitive data"
  | .unclear => "unclear"
  | .out_of_scope => "out_of_scope"

/-- Label enumeration of `PrioritySchema` (`src/schemas.py`). -/
inductive PriorityLabel where
  | P0 | P1 | P2
deriving DecidableEq, Repr

def PriorityLabel.toStr : PriorityLabel → String
  | .P0 => "P0"
  | .P1 => "P1"
  | .P2 => "P2"

/-- Result of `escalation_llm` structured output (`EscalationSchema`). -/
structure EscalationResult where
  escalate : Bool
  explanation : String
deriving DecidableEq, Repr

/-- A retrieved document: page content plus a source url, the shape the
spec gives for `docs` entries. -/
structure Doc where
  content : String
  url : String
deriving DecidableEq, Repr

/-- A Python value sitting in the `topic` / `sentiment` / `priority`
slots of the state dict as the label-extraction helpers in
`validate_topic` (src/workflow.py) and `get_label` (src/ticketing.py)
see it: a pydantic object carrying a `label` attribute, a dict carrying
a `"label"` key, or any other value, represented by its `str()`. -/
inductive LabelVal where
  | tagged (label : String)
  | labelMap (label : String)
  | raw (strRepr : String)
deriving DecidableEq, Repr

/-- A value returned by `safe_invoke_text` (`src/llm.py`) when the call
does not raise: either a plain string reply, or a message object with an
optional `content` attribute and a `str()` representation
(`generate_subject_from_query` handles both shapes defensively). -/
inductive LLMText where
  | str (s : String)
  | msg (content : Option String) (strRepr : String)
deriving DecidableEq, Repr

/-- Python truthiness of an `LLMText` value, as tested by
`if not result:` in `generate_subject_from_query`: a plain string is
falsy exactly when empty; an object is truthy. -/
def LLMText.pyTruthy : LLMText → Bool
  | .str s => s ≠ ""
  | .msg _ _ => true

/-- The text extracted by
`getattr(result, "content", None) or str(result)`: a plain string has no
`content` attribute so its `str()` is used; for an object, a falsy
(absent or empty) `content` falls through to `str(result)`. -/
def LLMText.textOf : LLMText → String
  | .str s => s
  | .msg (some c) r => if c = "" then r else c
  | .msg none r => r

/-- The `AgentState` typed dict of `src/workflow.py` (declared with
`total=False`, so every key may be absent: `none` models an absent key).
Node functions return values of this same type read as partial updates:
a `none` field means the key is not in the returned dict. -/
structure AgentState where
  message : Option String := none
  topic : Option LabelVal := none
  sentiment : Option LabelVal := none
  priority : Option LabelVal := none
  docs : Option (List Doc) := none
  answer : Option String := none
  is_topic_valid : Option Bool := none
  ticket_id : Option String := none
  ticket_topic : Option String := none
  ticket_subject : Option String := none
  ticket_query : Option String := none
  ticket_sentiment : Option String := none
  ticket_priority : Option String := none
  needs_ticket_offer : Option Bool := none
  escalation_reason : Option String := none
  ticket_message : Option String := none
deriving DecidableEq, Repr

/-- Shallow merge of one key, as performed per key by Python
`dict.update` / the LangGraph channel write: an update value replaces
the stored one, an absent update key leaves it. -/
def mergeField {α : Type} : Option α → Option α → Option α
  | some v, _ => some v
  | none, s => s

/-- Shallow merge of a node's partial update `u` into the running state
`s`, field by field — the engine-side `dict`-style merge the spec calls
"a shallow merge performed by the engine". -/
def mergeState (s u : AgentState) : AgentState where
  message := mergeField u.message s.message
  topic := mergeField u.topic s.topic
  sentiment := mergeField u.sentiment s.sentiment
  priority := mergeField u.priority s.priority
  docs := mergeField u.docs s.docs
  answer := mergeField u.answer s.answer
  is_topic_valid := mergeField u.is_topic_valid s.is_topic_valid
  ticket_id := mergeField u.ticket_id s.ticket_id
  ticket_topic := mergeField u.ticket_topic s.ticket_topic
  ticket_subject := mergeField u.ticket_subject s.ticket_subject
  ticket_query := mergeField u.ticket_query s.ticket_query
  ticket_sentiment := mergeField u.ticket_sentiment s.ticket_sentiment
  ticket_priority := mergeField u.ticket_priority s.ticket_priority
  needs_ticket_offer := mergeField u.needs_ticket_offer s.needs_ticket_offer
  escalation_reason := mergeField u.escalation_reason s.escalation_reason
  ticket_message := mergeField u.ticket_message s.ticket_message

/-- The external capabilities consumed by the nodes. A `none` result
models the underlying Python call raising (caught by `safe_invoke_*` or
by the node's own `try/except`) or the structured wrapper returning no
object; the structured classifiers can only deliver labels of their
schema enumeration (pydantic `Literal` validation — an out-of-range
reply raises inside `invoke` and is caught, yielding `None`). -/
structure Env where
  classifySentiment : String → Option SentimentLabel
  classifyTopic : String → Option TopicLabel
  classifyPriority : String → Option PriorityLabel
  escalationJudge : String → Option EscalationResult
  retrieve : String → Option (List Doc)
  qaInvoke : String → Option (String × List Doc)
  safeText : String → Option LLMText
  uuid4 : String
  insert : String → String → String → String → String → String → Option String
  crash : Option String

/-- Python slice `s[:n]` on a string. -/
def pySlice (s : String) (n : Nat) : String := String.mk (s.data.take n)

/-- Prompt template of `sentiment_analysis` (src/workflow.py). -/
def sentimentPrompt (message : String) : String :=
  "\nYou are a sentiment classifier for Atlan customer support queries.\n\nLabel the sentiment of the following user message:\n- Frustrated: user is annoyed but not hostile\n- Neutral: user is calm, not emotional\n- Curious: user is asking questions with interest\n- Angry: user is angry, rude, or aggressive\n\nUser message: \"" ++ message ++ "\"\n"

/-- Prompt template of `topic_classification` (src/workflow.py). -/
def topicPrompt (message : String) : String :=
  "\nYou are a classifier for Atlan customer support queries.\n\nClassify the following user message into one of these topics:\n- How-to: step-by-step usage questions\n- Product: general product questions / features\n- Connector: integration issues\n- Lineage: data lineage-related queries\n- API/SDK: programmatic usage\n- SSO: authentication / login issues\n- Glossary: terminology, business metadata\n- Best practices: recommended usage patterns\n- Sensitive data: compliance, governance\n- unclear: insufficient information to classify\n- out_of_scope: irrelevant to Atlan\n\nUser message: \"" ++ message ++ "\"\n"

/-- Prompt template of `priority_classification` (src/workflow.py). -/
def priorityPrompt (message : String) : String :=
  "\nYou are a support priority classifier for Atlan customer support queries.\n\nClassify the urgency level:\n- P0 (High): blocking issue, critical failure, user/team cannot proceed\n- P1 (Medium): important issue but there is a workaround\n- P2 (Low): minor inconvenience, cosmetic, general query\n\nUser message: \"" ++ message ++ "\"\n"

/-- Prompt template of the escalation judgment inside `generate_answer`
(src/workflow.py). -/
def escalationPrompt (answer_text : String) : String :=
  "\nYou are an Atlan support supervisor AI. Review the assistant\u0027s answer and decide if it should be escalated.\n\nAnswer:\n" ++ answer_text ++ "\n\nEscalate (True) if:\n- Documentation is missing.\n- The answer says to contact Atlan support.\n- The question is unclear or out of scope.\n- The problem is not fully solved.\n\nDo NOT escalate (False) if the answer is clear, complete, and actionable.\n"

/-- Prompt template of `generate_subject_from_query`
(src/ticketing.py). -/
def subjectPrompt (query : String) : String :=
  "\nGenerate a **single-line** concise ticket subject based on this user query:\n\n\n" ++ query ++ "\n\n\nDo NOT provide multiple options, just one short, descriptive line.\n"

/-- Node `sentiment_analysis` (src/workflow.py): empty message gives the
empty update; otherwise the structured sentiment classifier is invoked
and its result, when present, stored under the `sentiment` key. -/
def sentiment_analysis (env : Env) (state : AgentState) : AgentState :=
  let message := state.message.getD ""
  if message = "" then {}
  else
    match env.classifySentiment (sentimentPrompt message) with
    | some result => { sentiment := some (.tagged result.toStr) }
    | none => {}

/-- Node `topic_classification` (src/workflow.py). -/
def topic_classification (env : Env) (state : AgentState) : AgentState :=
  let message := state.message.getD ""
  if message = "" then {}
  else
    match env.classifyTopic (topicPrompt message) with
    | some result => { topic := some (.tagged result.toStr) }
    | none => {}

/-- Node `priority_classification` (src/workflow.py). -/
def priority_classification (env : Env) (state : AgentState) : AgentState :=
  let message := state.message.getD ""
  if message = "" then {}
  else
    match env.classifyPriority (priorityPrompt message) with
    | some result => { priority := some (.tagged result.toStr) }
    | none => {}

/-- Label extraction in `validate_topic`: `state.get("topic", "")`, then
attribute / key lookup, else `str(topic_obj)`; an absent topic defaults
to `""` whose `str()` is `""`. -/
def topicLabelOf : Option LabelVal → String
  | none => ""
  | some (.tagged l) => l
  | some (.labelMap l) => l
  | some (.raw r) => r

/-- The `valid_topics` set of `validate_topic` (src/workflow.py). -/
def valid_topics : List String :=
  ["How-to", "Product", "Best practices", "API/SDK", "SSO"]

/-- Node `validate_topic` (src/workflow.py): pure gate writing only
`is_topic_valid`, true exactly when the extracted topic label is in
`valid_topics`. -/
def validate_topic (state : AgentState) : AgentState :=
  let topic_label := topicLabelOf state.topic
  { is_topic_valid := some (valid_topics.contains topic_label) }

/-- Node `retrieve_docs` (src/workflow.py): a raising retriever call is
caught and mapped to `{"docs": []}`. -/
def retrieve_docs (env : Env) (state : AgentState) : AgentState :=
  let message := state.message.getD ""
  if message = "" then {}
  else
    match env.retrieve message with
    | some docs => { docs := some docs }
    | none => { docs := some [] }

/-- Node `generate_answer` (src/workflow.py): on empty message, short
circuit; otherwise the `RetrievalQA` chain is invoked (`env.qaInvoke`
yields the `result` text and `source_documents`; `none` models the call
raising, caught by the node's `try/except`), then the escalation judge
runs through `safe_invoke_structured` with defaults `False` / `""` on
failure. -/
def generate_answer (env : Env) (state : AgentState) : AgentState :=
  let message := state.message.getD ""
  if message = "" then { answer := some "No message provided." }
  else
    match env.qaInvoke message with
    | none =>
        { answer := some "Sorry, I couldn\u0027t generate an answer right now. Please try again later." }
    | some (answer_text, docs) =>
        let escalation_result := env.escalationJudge (escalationPrompt answer_text)
        let needs_ticket_offer :=
          match escalation_result with
          | some r => r.escalate
          | none => false
        let escalation_reason :=
          match escalation_result with
          | some r => r.explanation
          | none => ""
        { answer := some answer_text, docs := some docs,
          needs_ticket_offer := some needs_ticket_offer,
          escalation_reason := some escalation_reason }

/-- Subject synthesis `generate_subject_from_query` (src/ticketing.py):
`safe_invoke_text` on the subject prompt; a raising call or a falsy
result yields the literal `"Support request"`; otherwise
`text.strip().split("\n")[0][:200]`. -/
def generate_subject_from_query (env : Env) (query : String) : String :=
  match env.safeText (subjectPrompt query) with
  | none => "Support request"
  | some result =>
      if !result.pyTruthy then "Support request"
      else
        pySlice (String.mk (result.textOf.trim.data.takeWhile (fun c => c ≠ '\n'))) 200

/-- Label extraction `get_label` inside `create_ticket`
(src/ticketing.py): unlike the gate's extractor, a value with neither a
`label` attribute nor a `"label"` key falls back to the default. -/
def get_label (obj : Option LabelVal) (dflt : String) : String :=
  match obj with
  | none => dflt
  | some (.tagged l) => l
  | some (.labelMap l) => l
  | some (.raw _) => dflt

/-- The rendered `ticket_message` f-string of `create_ticket`
(src/ticketing.py). -/
def ticketMessageText (display_id topic user_query priority : String) : String :=
  " **Ticket Created**\n\n**ID:** " ++ display_id ++ "\n\n**Topic:** " ++ topic
    ++ "\n\n**Query:** " ++ user_query ++ "\n\n**Priority:** " ++ priority
    ++ "\n\nThis ticket has been routed to the appropriate support team."

/-- Ticketing stage `create_ticket` (src/ticketing.py). It mutates and
returns the FULL state dict it was given (not a partial update): on
insert failure only `answer` is set; on success the seven ticket fields
are set. `str(uuid.uuid4())[:10]` is `pySlice env.uuid4 10`. -/
def create_ticket (env : Env) (state : AgentState) : AgentState :=
  let ticket_id := pySlice env.uuid4 10
  let user_query := state.message.getD "No query provided."
  let topic := get_label state.topic "General"
  let sentiment := get_label state.sentiment "Neutral"
  let priority := get_label state.priority "P2"
  let subject := generate_subject_from_query env user_query
  match env.insert ticket_id topic user_query sentiment priority subject with
  | none =>
      { state with answer := some "Sorry \u2014 failed to create ticket due to a server error." }
  | some display_id =>
      { state with
        ticket_id := some ticket_id
        ticket_topic := some topic
        ticket_query := some user_query
        ticket_sentiment := some sentiment
        ticket_priority := some priority
        ticket_subject := some subject
        ticket_message := some (ticketMessageText display_id topic user_query priority) }

/-- Node `create_ticket` of the graph (`create_ticket_node` in
src/workflow.py): wraps `ticketing.create_ticket` in `try/except`; the
embedded `create_ticket` is total, so the handler branch (which would
return `{"answer": "Failed to create ticket due to server error."}`) is
unreachable in the model and the node returns `create_ticket`'s full
updated state as its update dict. -/
def create_ticket_node (env : Env) (state : AgentState) : AgentState :=
  create_ticket env state

/-- Routing function attached to the conditional edge out of
`validate_topic` (src/workflow.py): Python truthiness of
`state.get("is_topic_valid")` — only a present `True` routes to
`"valid"`. -/
def routing_function (state : AgentState) : String :=
  if state.is_topic_valid = some true then "valid" else "invalid"

/-- The unconditional edges registered on the graph via
`graph.add_edge` (src/workflow.py lines 298-318), with LangGraph's
`START` and `END` sentinels. -/
def addedEdges : List (String × String) :=
  [("__start__", "sentiment_analysis"),
   ("__start__", "topic_classification"),
   ("__start__", "priority_classification"),
   ("topic_classification", "validate_topic"),
   ("sentiment_analysis", "validate_topic"),
   ("priority_classification", "validate_topic"),
   ("retrieve_docs", "generate_answer"),
   ("create_ticket", "__end__"),
   ("generate_answer", "__end__")]

/-- The `path_map` of the single `add_conditional_edges` call
(src/workflow.py): the route string produced by `routing_function`
selects the successor of `validate_topic`. -/
def conditionalPathMap : List (String × String) :=
  [("valid", "retrieve_docs"), ("invalid", "create_ticket")]

/-- The update computed by the classification node named `n`, reading
the fan-out input state `s0` (all three branches read the same
pre-barrier snapshot, per the LangGraph superstep semantics). -/
def classifierUpdate (env : Env) (s0 : AgentState) : String → AgentState
  | "sentiment_analysis" => sentiment_analysis env s0
  | "topic_classification" => topic_classification env s0
  | "priority_classification" => priority_classification env s0
  | _ => {}

/-- The three classification node names in registration order. -/
def classifierNames : List String :=
  ["sentiment_analysis", "topic_classification", "priority_classification"]

/-- The state the gate observes (and from which it computes its update)
when the fan-out branches complete in order `order`, each reading the
pre-barrier snapshot `s0`. -/
def gateInput (env : Env) (s0 : AgentState) (order : List String) : AgentState :=
  order.foldl (fun s n => mergeState s (classifierUpdate env s0 n)) s0

/-- The state right after the gate has run, branches completing in
order `order`. -/
def gateStateAt (env : Env) (s0 : AgentState) (order : List String) : AgentState :=
  mergeState (gateInput env s0 order) (validate_topic (gateInput env s0 order))

/-- One full run of the compiled workflow from state `s0`, with the
three fan-out branches completing in the order given by `order` (their
updates merged in completion order, each branch reading `s0`); then the
gate, the conditional route, and the chosen branch to `__end__`.
Returns the final state and the trace of executed node names. -/
def runWorkflowTrace (env : Env) (s0 : AgentState) (order : List String) :
    AgentState × List String :=
  let s2 := gateStateAt env s0 order
  if routing_function s2 = "valid" then
    let s3 := mergeState s2 (retrieve_docs env s2)
    let s4 := mergeState s3 (generate_answer env s3)
    (s4, order ++ ["validate_topic", "retrieve_docs", "generate_answer"])
  else
    (mergeState s2 (create_ticket_node env s2), order ++ ["validate_topic", "create_ticket"])

/-- The run with branches completing in registration order. -/
def runWorkflow (env : Env) (s0 : AgentState) : AgentState :=
  (runWorkflowTrace env s0 classifierNames).1

/-- The state right after the gate has run, registration order. -/
def gateState (env : Env) (s0 : AgentState) : AgentState :=
  gateStateAt env s0 classifierNames

/-- The input dict `{"message": message}` built by the callers of
`workflow.invoke` (`run_workflow_for_message`, `_run_workflow`): a fresh
thread starts from exactly this state. -/
def initState (message : String) : AgentState :=
  { message := some message }

/-- The engine-level `workflow.invoke` as seen by a caller on a fresh
thread: either it completes with the final state, or some catastrophic
failure (`env.crash`) escapes the graph as an exception. Checkpoint
replay on an existing thread is outside this model. -/
def workflowInvoke (env : Env) (message : String) : Except String AgentState :=
  match env.crash with
  | some exc => .error exc
  | none => .ok (runWorkflow env (initState message))

/-- The `_run_workflow` wrapper of `apps/streamlit_agent.py`: invokes
the compiled workflow inside `try/except` and converts any exception to
`{"answer": "Internal error: failed to run assistant."}`. The
`thread_id` is the opaque checkpoint key; a fresh one is drawn per
session. -/
def _run_workflow (env : Env) (message : String) (thread_id : String) : AgentState :=
  let _ := thread_id
  match workflowInvoke env message with
  | .ok result => result
  | .error _ => { answer := some "Internal error: failed to run assistant." }

/-- A trace of fired node names respects the registered edges when every
fired node is preceded in the trace by each of its `add_edge`
predecessors (the `__start__` sentinel needs no position). This is the
readiness rule of the LangGraph executor restricted to this graph. -/
def respectsEdges (tr : List String) : Prop :=
  ∀ e ∈ addedEdges, ∀ j : Fin tr.length, tr.get j = e.2 →
    e.1 = "__start__" ∨ ∃ i : Fin tr.length, i.val < j.val ∧ tr.get i = e.1

instance (tr : List String) : Decidable (respectsEdges tr) := by
  unfold respectsEdges; infer_instance

/-- All completion orders of the three fan-out branches. -/
def classifierSchedules : List (List String) :=
  [["sentiment_analysis", "topic_classification", "priority_classification"],
   ["sentiment_analysis", "priority_classification", "topic_classification"],
   ["topic_classification", "sentiment_analysis", "priority_classification"],
   ["topic_classification", "priority_classification", "sentiment_analysis"],
   ["priority_classification", "sentiment_analysis", "topic_classification"],
   ["priority_classification", "topic_classification", "sentiment_analysis"]]

section helperLemmas

@[simp] lemma mergeField_none {α : Type} (s : Option α) : mergeField none s = s := rfl

@[simp] lemma mergeField_some {α : Type} (v : α) (s : Option α) :
    mergeField (some v) s = some v := rfl

lemma mergeField_isSome {α : Type} {s : Option α} (u : Option α) (h : s.isSome) :
    (mergeField u s).isSome := by cases u <;> simp [mergeField, h]

@[simp] lemma classifierUpdate_sa (env : Env) (s0 : AgentState) :
    classifierUpdate env s0 "sentiment_analysis" = sentiment_analysis env s0 := rfl

@[simp] lemma classifierUpdate_tc (env : Env) (s0 : AgentState) :
    classifierUpdate env s0 "topic_classification" = topic_classification env s0 := rfl

@[simp] lemma classifierUpdate_pc (env : Env) (s0 : AgentState) :
    classifierUpdate env s0 "priority_classification" = priority_classification env s0 := rfl

/-- The sentiment node only ever writes the `sentiment` key. -/
lemma sa_shape (env : Env) (s : AgentState) :
    ∃ v, sentiment_analysis env s = { sentiment := v } := by
  unfold sentiment_analysis
  by_cases h : s.message.getD "" = ""
  · exact ⟨none, by simp [h]⟩
  · simp only [h, if_false]
    cases hr : env.classifySentiment (sentimentPrompt (s.message.getD "")) with
    | some r => exact ⟨some (.tagged r.toStr), rfl⟩
    | none => exact ⟨none, rfl⟩

/-- The topic node only ever writes the `topic` key. -/
lemma tc_shape (env : Env) (s : AgentState) :
    ∃ v, topic_classification env s = { topic := v } := by
  unfold topic_classification
  by_cases h : s.message.getD "" = ""
  · exact ⟨none, by simp [h]⟩
  · simp only [h, if_false]
    cases hr : env.classifyTopic (topicPrompt (s.message.getD "")) with
    | some r => exact ⟨some (.tagged r.toStr), rfl⟩
    | none => exact ⟨none, rfl⟩

/-- The priority node only ever writes the `priority` key. -/
lemma pc_shape (env : Env) (s : AgentState) :
    ∃ v, priority_classification env s = { priority := v } := by
  unfold priority_classification
  by_cases h : s.message.getD "" = ""
  · exact ⟨none, by simp [h]⟩
  · simp only [h, if_false]
    cases hr : env.classifyPriority (priorityPrompt (s.message.getD "")) with
    | some r => exact ⟨some (.tagged r.toStr), rfl⟩
    | none => exact ⟨none, rfl⟩

/-- The retrieval node only ever writes the `docs` key. -/
lemma rd_shape (env : Env) (s : AgentState) :
    ∃ v, retrieve_docs env s = { docs := v } := by
  unfold retrieve_docs
  by_cases h : s.message.getD "" = ""
  · exact ⟨none, by simp [h]⟩
  · simp only [h, if_false]
    cases hr : env.retrieve (s.message.getD "") with
    | some docs => exact ⟨some docs, rfl⟩
    | none => exact ⟨some [], rfl⟩

/-- The answer node only ever writes its four keys `answer`, `docs`,
`needs_ticket_offer`, `escalation_reason`. -/
lemma ga_shape (env : Env) (s : AgentState) :
    ∃ a d n e, generate_answer env s =
      { answer := a, docs := d, needs_ticket_offer := n, escalation_reason := e } := by
  unfold generate_answer
  by_cases h : s.message.getD "" = ""
  · exact ⟨some "No message provided.", none, none, none, by simp [h]⟩
  · simp only [h, if_false]
    cases hq : env.qaInvoke (s.message.getD "") with
    | none => exact ⟨_, none, none, none, rfl⟩
    | some p => exact ⟨some p.1, some p.2, _, _, rfl⟩

end helperLemmas

attribute [ext] AgentState

section moreHelpers

/-- The gate's update, written out. -/
lemma validate_topic_eq (s : AgentState) :
    validate_topic s =
      { is_topic_valid := some (valid_topics.contains (topicLabelOf s.topic)) } := rfl

/-- Whatever the completion order of the three fan-out branches, the
state reaching the gate is the same: the initial state overlaid with the
three branch updates (each branch owns a distinct key). -/
lemma gateInput_order (env : Env) (s0 : AgentState) :
    ∀ order ∈ classifierSchedules, gateInput env s0 order = gateInput env s0 classifierNames := by
  obtain ⟨vs, hs⟩ := sa_shape env s0
  obtain ⟨vt, ht⟩ := tc_shape env s0
  obtain ⟨vp, hp⟩ := pc_shape env s0
  intro order h
  fin_cases h <;>
    simp [gateInput, classifierNames, classifierUpdate, hs, ht, hp, mergeState, mergeField]

/-- Fields of the state right after the gate, starting from a fresh
`initState`: `message` survives, the four downstream field groups are
still absent. -/
lemma gateState_fields (env : Env) (message : String) :
    (gateState env (initState message)).message = some message ∧
    (gateState env (initState message)).docs = none ∧
    (gateState env (initState message)).answer = none ∧
    (gateState env (initState message)).ticket_id = none ∧
    (gateState env (initState message)).ticket_topic = none ∧
    (gateState env (initState message)).ticket_query = none ∧
    (gateState env (initState message)).ticket_sentiment = none ∧
    (gateState env (initState message)).ticket_priority = none ∧
    (gateState env (initState message)).ticket_subject = none ∧
    (gateState env (initState message)).ticket_message = none := by
  obtain ⟨vs, hs⟩ := sa_shape env (initState message)
  obtain ⟨vt, ht⟩ := tc_shape env (initState message)
  obtain ⟨vp, hp⟩ := pc_shape env (initState message)
  simp only [gateState, gateStateAt, gateInput, classifierNames, List.foldl,
    classifierUpdate_sa, classifierUpdate_tc, classifierUpdate_pc, hs, ht, hp]
  simp [mergeState, mergeField, validate_topic_eq, initState]

/-- Behaviour of the ticketing stage on the fields the routing claims
talk about: it never touches `docs`, and it sets `answer` only on
insert failure (to the server-error apology). -/
lemma create_ticket_docs_answer (env : Env) (s : AgentState) :
    (create_ticket env s).docs = s.docs ∧
    ((create_ticket env s).answer = s.answer ∨
     (create_ticket env s).answer =
       some "Sorry \u2014 failed to create ticket due to a server error.") := by
  cases h : env.insert (pySlice env.uuid4 10) (get_label s.topic "General")
      (s.message.getD "No query provided.") (get_label s.sentiment "Neutral")
      (get_label s.priority "P2")
      (generate_subject_from_query env (s.message.getD "No query provided.")) with
  | none => exact ⟨by simp [create_ticket, h], Or.inr (by simp [create_ticket, h])⟩
  | some display_id => exact ⟨by simp [create_ticket, h], Or.inl (by simp [create_ticket, h])⟩

end moreHelpers

/-- A baseline environment in which every external capability fails
(classifiers and judges return nothing, retrieval and generation raise,
the ticket insert returns no display id) and nothing crashes. -/
def envBase : Env where
  classifySentiment := fun _ => none
  classifyTopic := fun _ => none
  classifyPriority := fun _ => none
  escalationJudge := fun _ => none
  retrieve := fun _ => none
  qaInvoke := fun _ => none
  safeText := fun _ => none
  uuid4 := "3f2a9c1b-7e4d-4a2a-9d1e-5b6c7d8e9f00"
  insert := fun _ _ _ _ _ _ => none
  crash := none

/-- C2: the gate `validate_topic` is a pure total function of the topic
field only: states agreeing on `topic` get the same verdict, its update
writes exactly `is_topic_valid`, and the verdict is `true` exactly when
the extracted label lies in the valid set
{How-to, Product, Best practices, API/SDK, SSO} — every other shape,
including an absent topic (label defaults to the empty string), gives
`false`. The embedded function is total and performs no external
call. -/
theorem claim_C2 (s t : AgentState) (h : s.topic = t.topic) :
    validate_topic s = validate_topic t ∧
    validate_topic s =
      { is_topic_valid := some (valid_topics.contains (topicLabelOf s.topic)) } ∧
    ((validate_topic s).is_topic_valid = some true ↔
      topicLabelOf s.topic ∈ valid_topics) := by
  refine ⟨by simp [validate_topic, h], rfl, ?_⟩
  simp [validate_topic]

/-- Witness for C2 at a concrete state: a tagged `"SSO"` topic validates
to `true` however the rest of the state looks. -/
theorem claim_C2_witness :
    validate_topic { topic := some (.tagged "SSO") } =
      validate_topic { topic := some (.tagged "SSO"),
                       message := some "How do I set up SSO?" } ∧
    (validate_topic { topic := some (.tagged "SSO") }).is_topic_valid = some true := by
  have h := claim_C2 { topic := some (.tagged "SSO") }
      { topic := some (.tagged "SSO"), message := some "How do I set up SSO?" } rfl
  exact ⟨h.1, h.2.2.mpr (by decide)⟩

/-- C7: each classification unit returns either the empty update (when
the message is empty or its classification capability yields nothing) or
a partial update carrying exactly its own field, tagged with a label of
its own schema enumeration; no unit ever writes a field it does not
own. -/
theorem claim_C7 (env : Env) (s : AgentState) :
    (((s.message.getD "" = "" ∨
        env.classifySentiment (sentimentPrompt (s.message.getD "")) = none) →
      sentiment_analysis env s = {}) ∧
     (sentiment_analysis env s = {} ∨
      ∃ l : SentimentLabel,
        sentiment_analysis env s = { sentiment := some (.tagged l.toStr) })) ∧
    (((s.message.getD "" = "" ∨
        env.classifyTopic (topicPrompt (s.message.getD "")) = none) →
      topic_classification env s = {}) ∧
     (topic_classification env s = {} ∨
      ∃ l : TopicLabel,
        topic_classification env s = { topic := some (.tagged l.toStr) })) ∧
    (((s.message.getD "" = "" ∨
        env.classifyPriority (priorityPrompt (s.message.getD "")) = none) →
      priority_classification env s = {}) ∧
     (priority_classification env s = {} ∨
      ∃ l : PriorityLabel,
        priority_classification env s = { priority := some (.tagged l.toStr) })) := by
  refine ⟨⟨?_, ?_⟩, ⟨?_, ?_⟩, ⟨?_, ?_⟩⟩
  · rintro (hm | hc)
    · simp [sentiment_analysis, hm]
    · by_cases hm : s.message.getD "" = ""
      · simp [sentiment_analysis, hm]
      · simp [sentiment_analysis, hm, hc]
  · by_cases hm : s.message.getD "" = ""
    · exact Or.inl (by simp [sentiment_analysis, hm])
    · cases hr : env.classifySentiment (sentimentPrompt (s.message.getD "")) with
      | none => exact Or.inl (by simp [sentiment_analysis, hm, hr])
      | some l => exact Or.inr ⟨l, by simp [sentiment_analysis, hm, hr]⟩
  · rintro (hm | hc)
    · simp [topic_classification, hm]
    · by_cases hm : s.message.getD "" = ""
      · simp [topic_classification, hm]
      · simp [topic_classification, hm, hc]
  · by_cases hm : s.message.getD "" = ""
    · exact Or.inl (by simp [topic_classification, hm])
    · cases hr : env.classifyTopic (topicPrompt (s.message.getD "")) with
      | none => exact Or.inl (by simp [topic_classification, hm, hr])
      | some l => exact Or.inr ⟨l, by simp [topic_classification, hm, hr]⟩
  · rintro (hm | hc)
    · simp [priority_classification, hm]
    · by_cases hm : s.message.getD "" = ""
      · simp [priority_classification, hm]
      · simp [priority_classification, hm, hc]
  · by_cases hm : s.message.getD "" = ""
    · exact Or.inl (by simp [priority_classification, hm])
    · cases hr : env.classifyPriority (priorityPrompt (s.message.getD "")) with
      | none => exact Or.inl (by simp [priority_classification, hm, hr])
      | some l => exact Or.inr ⟨l, by simp [priority_classification, hm, hr]⟩

/-- Witness for C7: with every capability failing and an empty message,
all three units return the empty update. -/
theorem claim_C7_witness :
    sentiment_analysis envBase (initState "") = {} ∧
    topic_classification envBase (initState "") = {} ∧
    priority_classification envBase (initState "") = {} := by
  have h := claim_C7 envBase (initState "")
  exact ⟨h.1.1 (Or.inl rfl), h.2.1.1 (Or.inl rfl), h.2.2.1 (Or.inl rfl)⟩

/-- C10: the answer node is independent of the `docs` field of its input
state — it performs its own retrieval through the `RetrievalQA` chain
and never reads `state["docs"]`, so overwriting `docs` with anything
leaves its output unchanged. -/
theorem claim_C10 (env : Env) (s : AgentState) (d : Option (List Doc)) :
    generate_answer env { s with docs := d } = generate_answer env s := rfl

/-- C5: an exception anywhere inside the generation `try` block yields
exactly the apology update, touching no other field; a raising retriever
inside `retrieve_docs` is instead absorbed as zero documents found. -/
theorem claim_C5 :
    (∀ (env : Env) (s : AgentState),
        s.message.getD "" ≠ "" →
        env.qaInvoke (s.message.getD "") = none →
        generate_answer env s =
          { answer := some "Sorry, I couldn\u0027t generate an answer right now. Please try again later." }) ∧
    (∀ (env : Env) (s : AgentState),
        s.message.getD "" ≠ "" →
        env.retrieve (s.message.getD "") = none →
        retrieve_docs env s = { docs := some [] }) := by
  constructor
  · intro env s hm hq
    simp [generate_answer, hm, hq]
  · intro env s hm hr
    simp [retrieve_docs, hm, hr]

/-- Witness for C5 at a concrete failing environment. -/
theorem claim_C5_witness :
    generate_answer envBase (initState "hi") =
      { answer := some "Sorry, I couldn\u0027t generate an answer right now. Please try again later." } ∧
    retrieve_docs envBase (initState "hi") = { docs := some [] } :=
  ⟨claim_C5.1 envBase (initState "hi") (by decide) rfl,
   claim_C5.2 envBase (initState "hi") (by decide) rfl⟩

/-- C4: when the ticket store's insert returns no display id, the
ticketing stage returns the input state with only `answer` set to the
server-error apology; none of the seven ticket fields is populated by
the call. -/
theorem claim_C4 (env : Env) (s : AgentState)
    (h : env.insert (pySlice env.uuid4 10) (get_label s.topic "General")
        (s.message.getD "No query provided.") (get_label s.sentiment "Neutral")
        (get_label s.priority "P2")
        (generate_subject_from_query env (s.message.getD "No query provided.")) = none) :
    create_ticket env s =
      { s with answer := some "Sorry \u2014 failed to create ticket due to a server error." } ∧
    (create_ticket env s).ticket_id = s.ticket_id ∧
    (create_ticket env s).ticket_topic = s.ticket_topic ∧
    (create_ticket env s).ticket_query = s.ticket_query ∧
    (create_ticket env s).ticket_sentiment = s.ticket_sentiment ∧
    (create_ticket env s).ticket_priority = s.ticket_priority ∧
    (create_ticket env s).ticket_subject = s.ticket_subject ∧
    (create_ticket env s).ticket_message = s.ticket_message := by
  have he : create_ticket env s =
      { s with answer := some "Sorry \u2014 failed to create ticket due to a server error." } := by
    simp [create_ticket, h]
  refine ⟨he, ?_, ?_, ?_, ?_, ?_, ?_, ?_⟩ <;> simp [he]

/-- Witness for C4: the failing store of `envBase`, on a fresh state, in
particular leaves `ticket_id` absent. -/
theorem claim_C4_witness :
    create_ticket envBase (initState "hi") =
      { initState "hi" with
        answer := some "Sorry \u2014 failed to create ticket due to a server error." } ∧
    (create_ticket envBase (initState "hi")).ticket_id = none := by
  have h := claim_C4 envBase (initState "hi") rfl
  exact ⟨h.1, h.2.1⟩

/-- C8: the generated ticket subject is always at most 200 characters
and contains no newline (first line of the stripped text, truncated);
and whenever the generation capability fails — or hands back a falsy
(empty) result — the subject is exactly `"Support request"`. -/
theorem claim_C8 (env : Env) (q : String) :
    (generate_subject_from_query env q).length ≤ 200 ∧
    (∀ c ∈ (generate_subject_from_query env q).data, c ≠ '\n') ∧
    ((env.safeText (subjectPrompt q) = none ∨
        ∃ r, env.safeText (subjectPrompt q) = some r ∧ r.pyTruthy = false) →
      generate_subject_from_query env q = "Support request") := by
  cases hr : env.safeText (subjectPrompt q) with
  | none =>
      have he : generate_subject_from_query env q = "Support request" := by
        simp [generate_subject_from_query, hr]
      refine ⟨?_, ?_, fun _ => he⟩
      · rw [he]; decide
      · rw [he]; decide
  | some r =>
      cases hb : r.pyTruthy with
      | false =>
          have he : generate_subject_from_query env q = "Support request" := by
            simp [generate_subject_from_query, hr, hb]
          refine ⟨?_, ?_, fun _ => he⟩
          · rw [he]; decide
          · rw [he]; decide
      | true =>
          have he : generate_subject_from_query env q =
              pySlice (String.mk (r.textOf.trim.data.takeWhile (fun c => c ≠ '\n'))) 200 := by
            simp [generate_subject_from_query, hr, hb]
          refine ⟨?_, ?_, ?_⟩
          · rw [he]
            simp only [pySlice, String.length, List.length_take]
            exact min_le_left _ _
          · rw [he]
            intro c hc
            have hc' : c ∈ r.textOf.trim.data.takeWhile (fun c => c ≠ '\n') :=
              List.mem_of_mem_take hc
            simpa using List.mem_takeWhile_imp hc'
          · rintro (h | ⟨r', hr', hfalse⟩)
            · exact Option.noConfusion h
            · injection hr' with h'
              subst h'
              rw [hb] at hfalse
              exact Bool.noConfusion hfalse

/-- Witness for C8: the failing generator of `envBase` yields the
literal fallback subject, within the length bound. -/
theorem claim_C8_witness :
    generate_subject_from_query envBase "How do I set up SSO?" = "Support request" ∧
    (generate_subject_from_query envBase "How do I set up SSO?").length ≤ 200 :=
  ⟨(claim_C8 envBase "How do I set up SSO?").2.2 (Or.inl rfl),
   (claim_C8 envBase "How do I set up SSO?").1⟩

/-- C3: the caller-facing invocation wrapper (`_run_workflow` in
`apps/streamlit_agent.py`) is a total function: whenever the engine
invocation completes it passes the final state through, and whenever a
catastrophic failure escapes the graph the wrapper absorbs it into
`{answer: "Internal error: failed to run assistant."}`; with no
catastrophic failure the result is exactly one full workflow run on a
fresh thread. Node-level failures never raise by construction (every
node of the embedding is total for every environment). -/
theorem claim_C3 (env : Env) (message thread_id : String) :
    (∀ result, workflowInvoke env message = .ok result →
        _run_workflow env message thread_id = result) ∧
    (∀ exc, workflowInvoke env message = .error exc →
        _run_workflow env message thread_id =
          { answer := some "Internal error: failed to run assistant." }) ∧
    (env.crash = none →
        _run_workflow env message thread_id = runWorkflow env (initState message)) := by
  cases hc : env.crash with
  | none =>
      refine ⟨?_, ?_, fun _ => ?_⟩
      · intro r hr
        simp only [workflowInvoke, hc] at hr
        injection hr with hr'
        simp [_run_workflow, workflowInvoke, hc, hr']
      · intro e he
        simp [workflowInvoke, hc] at he
      · simp [_run_workflow, workflowInvoke, hc, runWorkflow]
  | some exc0 =>
      refine ⟨?_, ?_, fun h => ?_⟩
      · intro r hr
        simp [workflowInvoke, hc] at hr
      · intro e he
        simp [_run_workflow, workflowInvoke, hc]
      · exact Option.noConfusion h

/-- A crashing engine environment. -/
def envCrash : Env := { envBase with crash := some "boom" }

/-- Witness for C3: a crash surfaces as the internal-error state. -/
theorem claim_C3_witness :
    _run_workflow envCrash "hi" "thread-1" =
      { answer := some "Internal error: failed to run assistant." } :=
  (claim_C3 envCrash "hi" "thread-1").2.1 "boom" rfl

/-- C6: barrier semantics of the fan-in at the gate. First, by the
registered topology, any firing sequence that respects the `add_edge`
predecessors fires `validate_topic` only strictly after each of the
three classification nodes. Second, whatever completion order the three
branches take, the state the gate observes is the same full fan-in
merge — the gate never sees a partially joined state. -/
theorem claim_C6 :
    (∀ (tr : List String), respectsEdges tr →
      ∀ j : Fin tr.length, tr.get j = "validate_topic" →
        (∃ i : Fin tr.length, i.val < j.val ∧ tr.get i = "sentiment_analysis") ∧
        (∃ i : Fin tr.length, i.val < j.val ∧ tr.get i = "topic_classification") ∧
        (∃ i : Fin tr.length, i.val < j.val ∧ tr.get i = "priority_classification")) ∧
    (∀ (env : Env) (s0 : AgentState), ∀ order ∈ classifierSchedules,
        gateInput env s0 order = gateInput env s0 classifierNames) := by
  constructor
  · intro tr hresp j hj
    refine ⟨?_, ?_, ?_⟩
    · rcases hresp ("sentiment_analysis", "validate_topic") (by simp [addedEdges]) j hj with
        h | h
      · exact absurd h (by decide)
      · exact h
    · rcases hresp ("topic_classification", "validate_topic") (by simp [addedEdges]) j hj with
        h | h
      · exact absurd h (by decide)
      · exact h
    · rcases hresp ("priority_classification", "validate_topic") (by simp [addedEdges]) j hj with
        h | h
      · exact absurd h (by decide)
      · exact h
  · exact fun env s0 => gateInput_order env s0

/-- Witness for C6: a concrete admissible trace ending in the ticket
branch has the sentiment node strictly before the gate, and a reversed
completion order yields the same gate input as registration order. -/
theorem claim_C6_witness :
    (∃ i : Fin 5, i.val < 3 ∧
        ["sentiment_analysis", "topic_classification", "priority_classification",
          "validate_topic", "create_ticket"].get i = "sentiment_analysis") ∧
    gateInput envBase (initState "hi")
        ["priority_classification", "topic_classification", "sentiment_analysis"] =
      gateInput envBase (initState "hi") classifierNames := by
  have h := claim_C6
  refine ⟨?_, h.2 envBase (initState "hi") _ (by decide)⟩
  exact (h.1 ["sentiment_analysis", "topic_classification", "priority_classification",
      "validate_topic", "create_ticket"] (by decide) ⟨3, by decide⟩ rfl).1

/-- The environment of the C1 counterexample: topic classifies to
`unclear` (so the gate says invalid) and the ticket store insert
fails. -/
def envC1 : Env :=
  { envBase with
    classifySentiment := fun _ => some .Neutral
    classifyTopic := fun _ => some .unclear
    classifyPriority := fun _ => some .P2 }

/-- Counterexample to C1 as stated: on the invalid branch the `answer`
field does NOT always remain absent — when the ticket insert fails, the
executed `create_ticket` path sets `answer` to the server-error apology
in the final state. -/
theorem claim_C1_cex :
    (gateState envC1 (initState "asdkjh garbage")).is_topic_valid = some false ∧
    (runWorkflowTrace envC1 (initState "asdkjh garbage") classifierNames).2 =
      classifierNames ++ ["validate_topic", "create_ticket"] ∧
    ((runWorkflowTrace envC1 (initState "asdkjh garbage") classifierNames).1).answer =
      some "Sorry \u2014 failed to create ticket due to a server error." :=
  ⟨rfl, rfl, rfl⟩

/-- C1 (amended): exactly one branch runs per invocation. If the gate
set `is_topic_valid = true`, the executed path is `retrieve_docs` then
`generate_answer` and every ticket field remains absent. If the gate set
`is_topic_valid = false` (the gate always writes the flag, so it is
never left absent), the executed path is `create_ticket`, `docs` remains
absent, and `answer` remains absent EXCEPT that a failing ticket insert
leaves the server-error apology in `answer`. -/
theorem claim_C1 (env : Env) (message : String) :
    ((gateState env (initState message)).is_topic_valid = some true →
      (runWorkflowTrace env (initState message) classifierNames).2 =
        classifierNames ++ ["validate_topic", "retrieve_docs", "generate_answer"] ∧
      "create_ticket" ∉ (runWorkflowTrace env (initState message) classifierNames).2 ∧
      ((runWorkflowTrace env (initState message) classifierNames).1).ticket_id = none ∧
      ((runWorkflowTrace env (initState message) classifierNames).1).ticket_topic = none ∧
      ((runWorkflowTrace env (initState message) classifierNames).1).ticket_query = none ∧
      ((runWorkflowTrace env (initState message) classifierNames).1).ticket_sentiment = none ∧
      ((runWorkflowTrace env (initState message) classifierNames).1).ticket_priority = none ∧
      ((runWorkflowTrace env (initState message) classifierNames).1).ticket_subject = none ∧
      ((runWorkflowTrace env (initState message) classifierNames).1).ticket_message = none) ∧
    ((gateState env (initState message)).is_topic_valid = some false →
      (runWorkflowTrace env (initState message) classifierNames).2 =
        classifierNames ++ ["validate_topic", "create_ticket"] ∧
      "retrieve_docs" ∉ (runWorkflowTrace env (initState message) classifierNames).2 ∧
      "generate_answer" ∉ (runWorkflowTrace env (initState message) classifierNames).2 ∧
      ((runWorkflowTrace env (initState message) classifierNames).1).docs = none ∧
      (((runWorkflowTrace env (initState message) classifierNames).1).answer = none ∨
       ((runWorkflowTrace env (initState message) classifierNames).1).answer =
         some "Sorry \u2014 failed to create ticket due to a server error.")) := by
  have hg := gateState_fields env message
  constructor
  · intro hv
    have hv' : (gateStateAt env (initState message) classifierNames).is_topic_valid =
        some true := hv
    have hroute : routing_function (gateStateAt env (initState message) classifierNames) =
        "valid" := by
      simp [routing_function, hv']
    have hrun : runWorkflowTrace env (initState message) classifierNames =
        (mergeState
          (mergeState (gateStateAt env (initState message) classifierNames)
            (retrieve_docs env (gateStateAt env (initState message) classifierNames)))
          (generate_answer env
            (mergeState (gateStateAt env (initState message) classifierNames)
              (retrieve_docs env (gateStateAt env (initState message) classifierNames)))),
         classifierNames ++ ["validate_topic", "retrieve_docs", "generate_answer"]) := by
      simp [runWorkflowTrace, hroute]
    obtain ⟨vd, hd⟩ := rd_shape env (gateStateAt env (initState message) classifierNames)
    obtain ⟨a, d, n, e, hga⟩ := ga_shape env
      (mergeState (gateStateAt env (initState message) classifierNames)
        (retrieve_docs env (gateStateAt env (initState message) classifierNames)))
    refine ⟨by rw [hrun], by rw [hrun]; dsimp only; decide, ?_, ?_, ?_, ?_, ?_, ?_, ?_⟩
    · rw [hrun]; simp only [hga]; simp [hd, mergeState, mergeField]
      exact hg.2.2.2.1
    · rw [hrun]; simp only [hga]; simp [hd, mergeState, mergeField]
      exact hg.2.2.2.2.1
    · rw [hrun]; simp only [hga]; simp [hd, mergeState, mergeField]
      exact hg.2.2.2.2.2.1
    · rw [hrun]; simp only [hga]; simp [hd, mergeState, mergeField]
      exact hg.2.2.2.2.2.2.1
    · rw [hrun]; simp only [hga]; simp [hd, mergeState, mergeField]
      exact hg.2.2.2.2.2.2.2.1
    · rw [hrun]; simp only [hga]; simp [hd, mergeState, mergeField]
      exact hg.2.2.2.2.2.2.2.2.1
    · rw [hrun]; simp only [hga]; simp [hd, mergeState, mergeField]
      exact hg.2.2.2.2.2.2.2.2.2
  · intro hv
    have hv' : (gateStateAt env (initState message) classifierNames).is_topic_valid =
        some false := hv
    have hroute : routing_function (gateStateAt env (initState message) classifierNames) =
        "invalid" := by
      simp [routing_function, hv']
    have hrun : runWorkflowTrace env (initState message) classifierNames =
        (mergeState (gateStateAt env (initState message) classifierNames)
          (create_ticket_node env (gateStateAt env (initState message) classifierNames)),
         classifierNames ++ ["validate_topic", "create_ticket"]) := by
      simp [runWorkflowTrace, hroute]
    obtain ⟨hdocs, hans⟩ :=
      create_ticket_docs_answer env (gateStateAt env (initState message) classifierNames)
    have hsdocs : (gateStateAt env (initState message) classifierNames).docs = none := hg.2.1
    have hsans : (gateStateAt env (initState message) classifierNames).answer = none :=
      hg.2.2.1
    refine ⟨by rw [hrun], by rw [hrun]; dsimp only; decide, by rw [hrun]; dsimp only; decide, ?_, ?_⟩
    · rw [hrun]
      simp [mergeState, create_ticket_node, hdocs, hsdocs, mergeField]
    · rw [hrun]
      rcases hans with h | h
      · exact Or.inl (by simp [mergeState, create_ticket_node, h, hsans, mergeField])
      · exact Or.inr (by simp [mergeState, create_ticket_node, h, mergeField])

/-- The environment of the C1 witness: topic classifies to `SSO`, the
QA chain answers, and everything downstream of the valid branch
works. -/
def envC1valid : Env :=
  { envBase with
    classifySentiment := fun _ => some .Curious
    classifyTopic := fun _ => some .SSO
    classifyPriority := fun _ => some .P2
    retrieve := fun _ => some [⟨"sso docs", "https://docs.example/sso"⟩]
    qaInvoke := fun _ => some ("Use the SSO setup page.", [⟨"sso docs", "https://docs.example/sso"⟩])
    escalationJudge := fun _ => some ⟨false, "clear"⟩ }

/-- Witness for C1 at a concrete valid-topic run: the answer path
executes and the ticket fields stay absent. -/
theorem claim_C1_witness :
    (runWorkflowTrace envC1valid (initState "How do I set up SSO?") classifierNames).2 =
      classifierNames ++ ["validate_topic", "retrieve_docs", "generate_answer"] ∧
    "create_ticket" ∉
      (runWorkflowTrace envC1valid (initState "How do I set up SSO?") classifierNames).2 ∧
    ((runWorkflowTrace envC1valid (initState "How do I set up SSO?") classifierNames).1).ticket_id =
      none := by
  have h := (claim_C1 envC1valid "How do I set up SSO?").1 rfl
  exact ⟨h.1, h.2.1, h.2.2.1⟩

/-- Key-presence ordering on states: every key present (with a value)
in `s` is present in `t`. -/
def presentIn (s t : AgentState) : Prop :=
  (s.message.isSome → t.message.isSome) ∧
  (s.topic.isSome → t.topic.isSome) ∧
  (s.sentiment.isSome → t.sentiment.isSome) ∧
  (s.priority.isSome → t.priority.isSome) ∧
  (s.docs.isSome → t.docs.isSome) ∧
  (s.answer.isSome → t.answer.isSome) ∧
  (s.is_topic_valid.isSome → t.is_topic_valid.isSome) ∧
  (s.ticket_id.isSome → t.ticket_id.isSome) ∧
  (s.ticket_topic.isSome → t.ticket_topic.isSome) ∧
  (s.ticket_subject.isSome → t.ticket_subject.isSome) ∧
  (s.ticket_query.isSome → t.ticket_query.isSome) ∧
  (s.ticket_sentiment.isSome → t.ticket_sentiment.isSome) ∧
  (s.ticket_priority.isSome → t.ticket_priority.isSome) ∧
  (s.needs_ticket_offer.isSome → t.needs_ticket_offer.isSome) ∧
  (s.escalation_reason.isSome → t.escalation_reason.isSome) ∧
  (s.ticket_message.isSome → t.ticket_message.isSome)

/-- Counterexample to C9 as stated: the ticket-creation stage does NOT
return a partial update — it returns the full mutated state object, so
its returned dict echoes `message`, a field the stage does not own (a
genuinely partial update would leave it absent). -/
theorem claim_C9_cex :
    ¬ (∀ (env : Env) (s : AgentState), (create_ticket_node env s).message = none) := by
  intro hall
  have h := hall envBase (initState "hi")
  rw [show (create_ticket_node envBase (initState "hi")).message = some "hi" from rfl] at h
  exact Option.noConfusion h

/-- C9 (amended): the engine's shallow merge never erases a present
key, each of the six graph stages other than ticket creation returns a
partial update carrying only the fields it owns, and the ticket-creation
node — which returns the full mutated state rather than a partial
update — still preserves every present key of its input. -/
theorem claim_C9 :
    (∀ s u : AgentState, presentIn s (mergeState s u)) ∧
    (∀ (env : Env) (s : AgentState), ∃ v, sentiment_analysis env s = { sentiment := v }) ∧
    (∀ (env : Env) (s : AgentState), ∃ v, topic_classification env s = { topic := v }) ∧
    (∀ (env : Env) (s : AgentState), ∃ v, priority_classification env s = { priority := v }) ∧
    (∀ s : AgentState, ∃ b, validate_topic s = { is_topic_valid := b }) ∧
    (∀ (env : Env) (s : AgentState), ∃ v, retrieve_docs env s = { docs := v }) ∧
    (∀ (env : Env) (s : AgentState), ∃ a d n e, generate_answer env s =
        { answer := a, docs := d, needs_ticket_offer := n, escalation_reason := e }) ∧
    (∀ (env : Env) (s : AgentState), presentIn s (create_ticket_node env s)) := by
  refine ⟨?_, sa_shape, tc_shape, pc_shape,
    fun s => ⟨_, validate_topic_eq s⟩, rd_shape, ga_shape, ?_⟩
  · intro s u
    unfold presentIn
    refine ⟨?_, ?_, ?_, ?_, ?_, ?_, ?_, ?_, ?_, ?_, ?_, ?_, ?_, ?_, ?_, ?_⟩ <;>
      exact fun h => mergeField_isSome _ h
  · intro env s
    cases h : env.insert (pySlice env.uuid4 10) (get_label s.topic "General")
        (s.message.getD "No query provided.") (get_label s.sentiment "Neutral")
        (get_label s.priority "P2")
        (generate_subject_from_query env (s.message.getD "No query provided.")) with
    | none =>
        have he : create_ticket env s =
            { s with answer := some "Sorry \u2014 failed to create ticket due to a server error." } := by
          simp [create_ticket, h]
        simp [presentIn, create_ticket_node, he]
    | some display_id =>
        have he : create_ticket env s =
            { s with
              ticket_id := some (pySlice env.uuid4 10)
              ticket_topic := some (get_label s.topic "General")
              ticket_query := some (s.message.getD "No query provided.")
              ticket_sentiment := some (get_label s.sentiment "Neutral")
              ticket_priority := some (get_label s.priority "P2")
              ticket_subject := some (generate_subject_from_query env
                (s.message.getD "No query provided."))
              ticket_message := some (ticketMessageText display_id
                (get_label s.topic "General") (s.message.getD "No query provided.")
                (get_label s.priority "P2")) } := by
          simp [create_ticket, h]
        simp [presentIn, create_ticket_node, he]

/-- Witness for C9 at concrete inputs: a present `message` key survives
both an engine merge and the ticket node. -/
theorem claim_C9_witness :
    (mergeState (initState "hi") { topic := some (.tagged "SSO") }).message.isSome = true ∧
    (create_ticket_node envBase (initState "hi")).message.isSome = true := by
  have h := claim_C9
  have h1 := h.1 (initState "hi") { topic := some (.tagged "SSO") }
  have h2 := h.2.2.2.2.2.2.2 envBase (initState "hi")
  unfold presentIn at h1 h2
  exact ⟨h1.1 (by decide), h2.1 (by decide)⟩
